import Mathlib

/-!
Verification of the `cool-calculator` toy ETL application (`src/app.py`).

The app exposes HTTP handlers over two independent sqlite stores (an input
database bound as `input_database` and the default output database).  We
embed the handlers as pure functions over an explicit `AppState` holding the
two stores.  A store is `Option (List _)`: `none` models a database whose
schema has never been created (querying it raises an OperationalError in
SQLAlchemy — `StoreUnavailable` in the spec), `some rows` models the table
contents in insertion order.  Python exceptions are modelled with `Except`.
-/

set_option maxRecDepth 4000

namespace CoolCalculator

/-- `class InputPerson(db.Model)` (src/app.py:27-33): id, name, nickname,
gender, age.  `id` is the primary key the store assigns on insert. -/
structure InputPerson where
  id : Nat
  name : String
  nickname : String
  gender : String
  age : Int
deriving DecidableEq, Repr

/-- `class OutputPerson(db.Model)` (src/app.py:36-48): same columns plus the
stored `is_cool` boolean.  The derived `first_name` property is modelled as a
separate function below, since it is not a column. -/
structure OutputPerson where
  id : Nat
  name : String
  nickname : String
  gender : String
  age : Int
  is_cool : Bool
deriving DecidableEq, Repr

/-- Python's whitespace characters for no-argument `str.split`:
space, tab, newline, carriage return, vertical tab, form feed. -/
def isPyWhitespace (c : Char) : Bool :=
  c == ' ' || c == '\t' || c == '\n' || c == '\r' ||
    c == Char.ofNat 11 || c == Char.ofNat 12

/-- Helper for `pySplit`: walks the characters, accumulating the current
token (in reverse); whitespace ends the current token, and empty tokens are
dropped, as Python's no-argument `str.split` does. -/
def pySplitAux : List Char → List Char → List String
  | [], cur => if cur.isEmpty then [] else [String.mk cur.reverse]
  | c :: rest, cur =>
    if isPyWhitespace c then
      if cur.isEmpty then pySplitAux rest []
      else String.mk cur.reverse :: pySplitAux rest []
    else pySplitAux rest (c :: cur)

/-- Python `str.split(s)` with no separator argument: split on runs of
whitespace, discarding empty tokens. -/
def pySplit (s : String) : List String :=
  pySplitAux s.toList []

/-- `OutputPerson.first_name` (src/app.py:46-48):
`return str.split(self.name)[0]`.  Indexing an empty list raises IndexError,
modelled as `none`. -/
def first_name (p : OutputPerson) : Option String :=
  (pySplit p.name).head?

/-- The two stores held by the application: the `input_database` bind and
the default (output) database.  `none` = schema never created. -/
structure AppState where
  input_db : Option (List InputPerson)
  output_db : Option (List OutputPerson)
deriving DecidableEq, Repr

/-- The Python exceptions the handlers can raise uncaught. -/
inductive PyError where
  /-- sqlite OperationalError: the queried table does not exist. -/
  | storeUnavailable
  /-- IndexError: `str.split(self.name)[0]` on a tokenless name. -/
  | indexError
deriving DecidableEq, Repr

/-- Insert a row into the input table: sqlite assigns the next primary key
(rows are only ever appended with fresh ids, so this is `length + 1`). -/
def insertInput (tbl : List InputPerson) (name nickname gender : String)
    (age : Int) : List InputPerson :=
  tbl ++ [⟨tbl.length + 1, name, nickname, gender, age⟩]

/-- `create_input_database` (src/app.py:53-95): drops and recreates the
input database, then seeds Richie, Fonzie and Joanie and commits, returning
`"ok"`.  The source calls `db.session.add(new_person)` a second time at
line 89 on the very same Fonzie object; a SQLAlchemy session is an identity
set, so adding the same instance twice is a no-op and exactly three rows are
inserted. -/
def create_input_database (s : AppState) : AppState × String :=
  let tbl : List InputPerson := []
  let tbl := insertInput tbl "Richard Cunningham" "Richie" "male" 19
  let tbl := insertInput tbl "Arthur Herbert Fonzarelli" "Fonzie" "male" 20
  let tbl := insertInput tbl "Joanie Cunningham" "Joanie" "female" 20
  ({ s with input_db := some tbl }, "ok")

/-- `show_input_database` (src/app.py:98-131): `InputPerson.query.all()` is
not wrapped in any try/except, so a missing input schema propagates; on
success each row is serialised to a dict with exactly the five stored
columns, i.e. an identity copy of the row. -/
def show_input_database (s : AppState) : Except PyError (List InputPerson) :=
  match s.input_db with
  | none => .error .storeUnavailable
  | some people => .ok people

/-- One serialised row of `show_output_database`: the five stored columns,
`is_cool`, and the derived `first_name`. -/
structure OutputRow where
  id : Nat
  name : String
  nickname : String
  gender : String
  age : Int
  is_cool : Bool
  first_name : String
deriving DecidableEq, Repr

/-- Serialise one `OutputPerson` (src/app.py:150-158); computing
`person.first_name` can raise IndexError, hence `Option`. -/
def serializeOutput (p : OutputPerson) : Option OutputRow :=
  (first_name p).map fun fn =>
    ⟨p.id, p.name, p.nickname, p.gender, p.age, p.is_cool, fn⟩

/-- What `show_output_database` returns when it does not raise: either the
JSON list of rows, or the handled-error object with its `status` and
`what_happened` fields (src/app.py:140-143). -/
inductive ShowOutputPayload where
  | rows : List OutputRow → ShowOutputPayload
  | errorObj : String → String → ShowOutputPayload
deriving DecidableEq, Repr

/-- The serialisation loop of `show_output_database` (src/app.py:149-159):
build the row dicts in order; the first person whose `first_name` raises
IndexError aborts the whole response (`none`). -/
def serializeAll : List OutputPerson → Option (List OutputRow)
  | [] => some []
  | p :: rest =>
    match serializeOutput p, serializeAll rest with
    | some row, some rows => some (row :: rows)
    | _, _ => none

/-- `show_output_database` (src/app.py:134-162): the query is wrapped in a
bare try/except that returns the structured error object; serialisation of
the rows happens after the try block, so an IndexError from `first_name`
propagates uncaught. -/
def show_output_database (s : AppState) : Except PyError ShowOutputPayload :=
  match s.output_db with
  | none => .ok (.errorObj "error"
      "Could not access output database. Did you create it already?")
  | some people =>
    match serializeAll people with
    | none => .error .indexError
    | some rows => .ok (.rows rows)

/-- One iteration of the `process_everything` loop (src/app.py:179-200):
classify the person (`is_cool = nickname == "Fonzie"`), bump the cool
counter on the cool branch, append the new output row (copying the four
fields and setting `is_cool`), bump the processed counter. -/
def process_loop :
    List InputPerson → List OutputPerson → Nat → Nat →
      List OutputPerson × Nat × Nat
  | [], out, n, m => (out, n, m)
  | p :: rest, out, n, m =>
    let is_this_person_cool := p.nickname == "Fonzie"
    let m := if is_this_person_cool then m + 1 else m
    let out := out ++
      [⟨out.length + 1, p.name, p.nickname, p.gender, p.age,
        is_this_person_cool⟩]
    process_loop rest out (n + 1) m

/-- `process_everything` (src/app.py:165-204): drop and recreate the default
(output) database, read every input row — uncaught StoreUnavailable if the
input schema is missing —, run the loop, commit, and return the summary
string. -/
def process_everything (s : AppState) : Except PyError (AppState × String) :=
  let s1 : AppState := { s with output_db := some [] }
  match s1.input_db with
  | none => .error .storeUnavailable
  | some inputs =>
    let r := process_loop inputs [] 0 0
    .ok ({ s1 with output_db := some r.1 },
      toString r.2.1 ++ " people processed of which " ++ toString r.2.2
        ++ " were cool")

/-- One filler row of `create_lots_of_people` (src/app.py:210-215), given
the id the store will assign. -/
def mkFiller (k : Nat) : InputPerson :=
  ⟨k + 1, "Someone else", "Too boring to have a nickname", "Unclear", 25⟩

/-- `n` iterations of the `create_lots_of_people` loop, each appending one
filler row. -/
def addFillers : Nat → List InputPerson → List InputPerson
  | 0, tbl => tbl
  | n + 1, tbl => addFillers n (tbl ++ [mkFiller tbl.length])

/-- `create_lots_of_people` (src/app.py:207-218): `range(1, 100000)` runs
99999 iterations, each adding one filler row; the commit fails with an
uncaught OperationalError if the input schema was never created.  The
returned text overstates the count by one. -/
def create_lots_of_people (s : AppState) : Except PyError (AppState × String) :=
  match s.input_db with
  | none => .error .storeUnavailable
  | some tbl =>
    .ok ({ s with input_db := some (addFillers 99999 tbl) },
      "100,000 people created in input database")

/-- The destination record one loop iteration of `process_everything`
builds from the source record `p`, when the destination table already holds
`k` rows: the four columns are copied verbatim, `is_cool` comes from the
classification rule, and the store assigns id `k + 1`. -/
def mkOutput (k : Nat) (p : InputPerson) : OutputPerson :=
  ⟨k + 1, p.name, p.nickname, p.gender, p.age, p.nickname == "Fonzie"⟩

/-- The destination rows the pipeline produces from `inputs`, starting with
`k` rows already in the destination table (ids `k+1`, `k+2`, ...). -/
def transformFrom (k : Nat) : List InputPerson → List OutputPerson
  | [] => []
  | p :: rest => mkOutput k p :: transformFrom (k + 1) rest

/-- The rule used by the pipeline, as a predicate on source records. -/
def isFonzie (p : InputPerson) : Bool :=
  p.nickname == "Fonzie"

lemma transformFrom_length (k : Nat) (l : List InputPerson) :
    (transformFrom k l).length = l.length := by
  induction l generalizing k with
  | nil => rfl
  | cons p rest ih => simp [transformFrom, ih]

lemma transformFrom_get (l : List InputPerson) (k i : Nat)
    (h1 : i < l.length) (h2 : i < (transformFrom k l).length) :
    (transformFrom k l).get ⟨i, h2⟩ = mkOutput (k + i) (l.get ⟨i, h1⟩) := by
  induction l generalizing k i with
  | nil => exact absurd h1 (Nat.not_lt_zero i)
  | cons p rest ih =>
    cases i with
    | zero => rfl
    | succ j =>
      have hj : j < rest.length := Nat.lt_of_succ_lt_succ h1
      have hj2 : j < (transformFrom (k + 1) rest).length := by
        rw [transformFrom_length]; exact hj
      have := ih (k + 1) j hj hj2
      simpa [transformFrom, Nat.add_comm, Nat.add_assoc, Nat.add_left_comm]
        using this

lemma process_loop_eq (inputs : List InputPerson) (out : List OutputPerson)
    (n m : Nat) :
    process_loop inputs out n m =
      (out ++ transformFrom out.length inputs, n + inputs.length,
        m + inputs.countP isFonzie) := by
  induction inputs generalizing out n m with
  | nil => simp [process_loop, transformFrom]
  | cons p rest ih =>
    simp only [process_loop, transformFrom]
    rw [ih]
    refine Prod.ext ?_ (Prod.ext ?_ ?_)
    · simp [List.append_assoc, transformFrom, mkOutput]
    · simp [List.length_cons]; omega
    · simp only [List.countP_cons, isFonzie]
      split <;> omega

/-- The summary string `process_everything` returns for a given input
table. -/
def pipelineMsg (inputs : List InputPerson) : String :=
  toString inputs.length ++ " people processed of which "
    ++ toString (inputs.countP isFonzie) ++ " were cool"

lemma process_everything_eq (s : AppState) (inputs : List InputPerson)
    (h : s.input_db = some inputs) :
    process_everything s =
      .ok (⟨some inputs, some (transformFrom 0 inputs)⟩, pipelineMsg inputs) := by
  obtain ⟨inp, outdb⟩ := s
  simp only at h
  subst h
  simp [process_everything, process_loop_eq, pipelineMsg]

/-- The three source rows `create_input_database` seeds, with the ids the
store assigns. -/
def seedRows : List InputPerson :=
  [⟨1, "Richard Cunningham", "Richie", "male", 19⟩,
   ⟨2, "Arthur Herbert Fonzarelli", "Fonzie", "male", 20⟩,
   ⟨3, "Joanie Cunningham", "Joanie", "female", 20⟩]

/-- The destination rows the pipeline produces from `seedRows`. -/
def seedOut : List OutputPerson :=
  [⟨1, "Richard Cunningham", "Richie", "male", 19, false⟩,
   ⟨2, "Arthur Herbert Fonzarelli", "Fonzie", "male", 20, true⟩,
   ⟨3, "Joanie Cunningham", "Joanie", "female", 20, false⟩]

/-- A freshly seeded application state: input seeded, output never
created. -/
def seededState : AppState :=
  ⟨some seedRows, none⟩

/-- The `n` filler rows `create_lots_of_people` appends to a table that
already holds `k` rows. -/
def fillerRows (k : Nat) : Nat → List InputPerson
  | 0 => []
  | n + 1 => mkFiller k :: fillerRows (k + 1) n

lemma addFillers_eq (n : Nat) (tbl : List InputPerson) :
    addFillers n tbl = tbl ++ fillerRows tbl.length n := by
  induction n generalizing tbl with
  | zero => simp [addFillers, fillerRows]
  | succ k ih =>
    rw [addFillers, ih]
    simp [fillerRows, List.append_assoc]

lemma fillerRows_length (k n : Nat) : (fillerRows k n).length = n := by
  induction n generalizing k with
  | zero => rfl
  | succ j ih => simp [fillerRows, ih]

lemma fillerRows_mem (k n : Nat) (p : InputPerson) (h : p ∈ fillerRows k n) :
    p.name = "Someone else" ∧ p.nickname = "Too boring to have a nickname"
      ∧ p.gender = "Unclear" ∧ p.age = 25 := by
  induction n generalizing k with
  | zero => simp [fillerRows] at h
  | succ j ih =>
    simp only [fillerRows, List.mem_cons] at h
    rcases h with h | h
    · subst h
      exact ⟨rfl, rfl, rfl, rfl⟩
    · exact ih (k + 1) h

lemma serializeAll_of_mem_fail (rows : List OutputPerson) (p : OutputPerson)
    (hmem : p ∈ rows) (hfail : serializeOutput p = none) :
    serializeAll rows = none := by
  induction rows with
  | nil => simp at hmem
  | cons q rest ih =>
    simp only [List.mem_cons] at hmem
    rcases hmem with h | h
    · subst h
      simp [serializeAll, hfail]
    · rw [serializeAll, ih h]
      cases serializeOutput q <;> rfl

lemma process_everything_none (s : AppState) (h : s.input_db = none) :
    process_everything s = .error .storeUnavailable := by
  obtain ⟨inp, outdb⟩ := s
  simp only at h
  subst h
  rfl

lemma pySplitAux_all_ws (l : List Char) (h : ∀ c ∈ l, isPyWhitespace c = true) :
    pySplitAux l [] = [] := by
  induction l with
  | nil => rfl
  | cons c rest ih =>
    have hc : isPyWhitespace c = true := h c (List.mem_cons_self c rest)
    simp only [pySplitAux, hc, if_true, List.isEmpty_nil]
    exact ih fun d hd => h d (List.mem_cons_of_mem c hd)

/-- Claim C1: on any source store, the pipeline produces exactly one
destination record per source record, a destination record is `is_cool`
exactly when its source record's nickname is `"Fonzie"`, and the returned
summary reports the number of `"Fonzie"` records as the cool count. -/
theorem C1_pipeline_fonzie_rule (s : AppState) (inputs : List InputPerson)
    (h : s.input_db = some inputs) :
    process_everything s =
      .ok (⟨some inputs, some (transformFrom 0 inputs)⟩,
        toString inputs.length ++ " people processed of which "
          ++ toString (inputs.countP isFonzie) ++ " were cool")
    ∧ (transformFrom 0 inputs).length = inputs.length
    ∧ ∀ i (h1 : i < inputs.length) (h2 : i < (transformFrom 0 inputs).length),
        ((transformFrom 0 inputs).get ⟨i, h2⟩).is_cool
          = ((inputs.get ⟨i, h1⟩).nickname == "Fonzie") := by
  refine ⟨process_everything_eq s inputs h, transformFrom_length 0 inputs, ?_⟩
  intro i h1 h2
  rw [transformFrom_get inputs 0 i h1 h2]
  rfl

/-- Witness for C1 at the seeded three-person store. -/
theorem C1_pipeline_fonzie_rule_witness :
    seededState.input_db = some seedRows
    ∧ process_everything seededState =
        .ok (⟨some seedRows, some (transformFrom 0 seedRows)⟩,
          toString seedRows.length ++ " people processed of which "
            ++ toString (seedRows.countP isFonzie) ++ " were cool") :=
  ⟨rfl, (C1_pipeline_fonzie_rule seededState seedRows rfl).1⟩

/-- Claim C2: seeding inserts exactly the three sample records; the
subsequent pipeline run returns `"3 people processed of which 1 were cool"`
and the destination store then holds exactly one `is_cool` record, the one
with nickname `"Fonzie"`. -/
theorem C2_seed_then_pipeline (s0 : AppState) :
    create_input_database s0 = ({ s0 with input_db := some seedRows }, "ok")
    ∧ process_everything { s0 with input_db := some seedRows } =
        .ok (⟨some seedRows, some seedOut⟩,
          "3 people processed of which 1 were cool")
    ∧ seedOut.filter (fun o => o.is_cool) =
        [⟨2, "Arthur Herbert Fonzarelli", "Fonzie", "male", 20, true⟩]
    ∧ ∀ o ∈ seedOut, o.is_cool = true → o.nickname = "Fonzie" := by
  exact ⟨rfl, rfl, rfl, by decide⟩

/-- Claim C3: a pipeline run wipes any prior destination content, so the
final destination store and message depend on the source store alone; in
particular a second run right after a first reproduces the first run's
result exactly. -/
theorem C3_full_replacement (s s2 : AppState) (msg : String)
    (h : process_everything s = .ok (s2, msg)) :
    process_everything s2 = .ok (s2, msg)
    ∧ ∀ t t2 mt, t.input_db = s.input_db →
        process_everything t = .ok (t2, mt) →
        t2.output_db = s2.output_db ∧ mt = msg := by
  cases hin : s.input_db with
  | none =>
    rw [process_everything_none s hin] at h
    exact absurd h (by simp)
  | some inputs =>
    rw [process_everything_eq s inputs hin] at h
    simp only [Except.ok.injEq, Prod.mk.injEq] at h
    obtain ⟨h1, h2⟩ := h
    subst h1
    subst h2
    refine ⟨process_everything_eq _ inputs rfl, ?_⟩
    intro t t2 mt htin hteq
    rw [process_everything_eq t inputs htin] at hteq
    simp only [Except.ok.injEq, Prod.mk.injEq] at hteq
    obtain ⟨h3, h4⟩ := hteq
    subst h3
    subst h4
    exact ⟨rfl, rfl⟩

/-- Witness for C3: running the pipeline on the seeded state, then running
it again on the resulting state, reproduces the same state and message. -/
theorem C3_full_replacement_witness :
    process_everything seededState =
      .ok (⟨some seedRows, some seedOut⟩,
        "3 people processed of which 1 were cool")
    ∧ process_everything ⟨some seedRows, some seedOut⟩ =
        .ok (⟨some seedRows, some seedOut⟩,
          "3 people processed of which 1 were cool") :=
  ⟨rfl, (C3_full_replacement seededState ⟨some seedRows, some seedOut⟩
    "3 people processed of which 1 were cool" rfl).1⟩

/-- Claim C4: with the destination schema missing, `show_output_database`
returns the handled `status = "error"` object with a non-empty
`what_happened`, while `show_input_database` and `process_everything` let
the store failure propagate uncaught. -/
theorem C4_error_asymmetry (s : AppState) (hout : s.output_db = none)
    (hin : s.input_db = none) :
    (∃ msg, show_output_database s = .ok (.errorObj "error" msg) ∧ msg ≠ "")
    ∧ show_input_database s = .error .storeUnavailable
    ∧ process_everything s = .error .storeUnavailable := by
  obtain ⟨inp, outdb⟩ := s
  simp only at hout hin
  subst hout
  subst hin
  exact ⟨⟨_, rfl, by decide⟩, rfl, rfl⟩

/-- Witness for C4 at the fresh (no store created) state. -/
theorem C4_error_asymmetry_witness :
    (AppState.mk none none).output_db = none
    ∧ (AppState.mk none none).input_db = none
    ∧ show_input_database ⟨none, none⟩ = .error .storeUnavailable
    ∧ process_everything ⟨none, none⟩ = .error .storeUnavailable :=
  ⟨rfl, rfl, (C4_error_asymmetry ⟨none, none⟩ rfl rfl).2.1,
    (C4_error_asymmetry ⟨none, none⟩ rfl rfl).2.2⟩

/-- Claim C5: whenever `name` has at least one whitespace-delimited token,
`first_name` is exactly the first token; in particular
`"Joanie Cunningham"` gives `"Joanie"`. -/
theorem C5_first_name_first_token (p : OutputPerson)
    (h : pySplit p.name ≠ []) :
    first_name p = some ((pySplit p.name).head h)
    ∧ (p.name = "Joanie Cunningham" → first_name p = some "Joanie") := by
  constructor
  · rw [first_name, List.head?_eq_head]
  · intro hn
    rw [first_name, hn]
    rfl

/-- Witness for C5 at the name `"Joanie Cunningham"`. -/
theorem C5_first_name_first_token_witness :
    pySplit "Joanie Cunningham" ≠ []
    ∧ first_name ⟨3, "Joanie Cunningham", "Joanie", "female", 20, false⟩ =
        some "Joanie" :=
  ⟨by decide,
    (C5_first_name_first_token
      ⟨3, "Joanie Cunningham", "Joanie", "female", 20, false⟩ (by decide)).2 rfl⟩

/-- Claim C6: `first_name` on an empty `name` fails with an indexing error
(`none`, no default substituted), and the failure is uncaught: serialising a
destination table containing such a record makes `show_output_database`
raise rather than answer. -/
theorem C6_empty_name_fails (p : OutputPerson) (h : p.name = "") :
    first_name p = none
    ∧ ∀ s rows, s.output_db = some rows → p ∈ rows →
        show_output_database s = .error .indexError := by
  have hfn : first_name p = none := by
    rw [first_name, h]
    rfl
  refine ⟨hfn, ?_⟩
  intro s rows hs hmem
  obtain ⟨inp, outdb⟩ := s
  simp only at hs
  subst hs
  have hser : serializeOutput p = none := by
    rw [serializeOutput, hfn]
    rfl
  have hall := serializeAll_of_mem_fail rows p hmem hser
  simp [show_output_database, hall]

/-- Witness for C6 at a record with empty name. -/
theorem C6_empty_name_fails_witness :
    (⟨1, "", "Nobody", "unknown", 0, false⟩ : OutputPerson).name = ""
    ∧ first_name ⟨1, "", "Nobody", "unknown", 0, false⟩ = none
    ∧ show_output_database
        ⟨none, some [⟨1, "", "Nobody", "unknown", 0, false⟩]⟩ =
        .error .indexError :=
  ⟨rfl, (C6_empty_name_fails ⟨1, "", "Nobody", "unknown", 0, false⟩ rfl).1,
    (C6_empty_name_fails ⟨1, "", "Nobody", "unknown", 0, false⟩ rfl).2
      ⟨none, some [⟨1, "", "Nobody", "unknown", 0, false⟩]⟩
      [⟨1, "", "Nobody", "unknown", 0, false⟩] rfl (by simp)⟩

/-- Claim C7: every destination record carries its source record's `name`,
`nickname`, `gender` and `age` verbatim; beyond those copies the
transformation only sets `is_cool` (the id being assigned by the store as
the row position). -/
theorem C7_fields_copied_verbatim (s : AppState) (inputs : List InputPerson)
    (h : s.input_db = some inputs) (s2 : AppState) (msg : String)
    (h2 : process_everything s = .ok (s2, msg)) :
    ∃ out : List OutputPerson, s2.output_db = some out
      ∧ out.length = inputs.length
      ∧ ∀ i (hi : i < inputs.length) (ho : i < out.length),
          (out.get ⟨i, ho⟩).name = (inputs.get ⟨i, hi⟩).name
          ∧ (out.get ⟨i, ho⟩).nickname = (inputs.get ⟨i, hi⟩).nickname
          ∧ (out.get ⟨i, ho⟩).gender = (inputs.get ⟨i, hi⟩).gender
          ∧ (out.get ⟨i, ho⟩).age = (inputs.get ⟨i, hi⟩).age
          ∧ (out.get ⟨i, ho⟩).is_cool = ((inputs.get ⟨i, hi⟩).nickname == "Fonzie")
          ∧ (out.get ⟨i, ho⟩).id = i + 1 := by
  rw [process_everything_eq s inputs h] at h2
  simp only [Except.ok.injEq, Prod.mk.injEq] at h2
  obtain ⟨h3, h4⟩ := h2
  subst h3
  refine ⟨transformFrom 0 inputs, rfl, transformFrom_length 0 inputs, ?_⟩
  intro i hi ho
  rw [transformFrom_get inputs 0 i hi ho]
  simp [mkOutput]

/-- Witness for C7 at the seeded three-person store. -/
theorem C7_fields_copied_verbatim_witness :
    ∃ out : List OutputPerson,
      (AppState.mk (some seedRows) (some (transformFrom 0 seedRows))).output_db
        = some out
      ∧ out.length = seedRows.length := by
  obtain ⟨out, h1, h2, h3⟩ :=
    C7_fields_copied_verbatim seededState seedRows rfl
      ⟨some seedRows, some (transformFrom 0 seedRows)⟩ (pipelineMsg seedRows) rfl
  exact ⟨out, h1, h2⟩

/-- Claim C8: one call to `create_lots_of_people` appends exactly 99999
filler records — each with name `"Someone else"`, nickname
`"Too boring to have a nickname"`, gender `"Unclear"`, age 25 — to the
source store, leaving the prior rows in place, and returns the plain-text
confirmation string. -/
theorem C8_bulk_insert_99999 (s : AppState) (tbl : List InputPerson)
    (h : s.input_db = some tbl) :
    ∃ tbl2 : List InputPerson,
      create_lots_of_people s =
        .ok ({ s with input_db := some tbl2 },
          "100,000 people created in input database")
      ∧ tbl2.length = tbl.length + 99999
      ∧ tbl2.take tbl.length = tbl
      ∧ ∀ p ∈ tbl2.drop tbl.length,
          p.name = "Someone else" ∧ p.nickname = "Too boring to have a nickname"
          ∧ p.gender = "Unclear" ∧ p.age = 25 := by
  refine ⟨addFillers 99999 tbl, ?_, ?_, ?_, ?_⟩
  · obtain ⟨inp, outdb⟩ := s
    simp only at h
    subst h
    rfl
  · rw [addFillers_eq]
    simp [fillerRows_length]
  · rw [addFillers_eq]
    exact List.take_left tbl (fillerRows tbl.length 99999)
  · rw [addFillers_eq, List.drop_left]
    intro p hp
    exact fillerRows_mem tbl.length 99999 p hp

/-- Witness for C8 starting from an empty (but created) source store. -/
theorem C8_bulk_insert_99999_witness :
    (AppState.mk (some []) none).input_db = some ([] : List InputPerson)
    ∧ ∃ tbl2 : List InputPerson,
        create_lots_of_people ⟨some [], none⟩ =
          .ok (⟨some tbl2, none⟩, "100,000 people created in input database")
        ∧ tbl2.length = 0 + 99999 := by
  refine ⟨rfl, ?_⟩
  obtain ⟨t2, h1, h2, h3, h4⟩ := C8_bulk_insert_99999 ⟨some [], none⟩ [] rfl
  exact ⟨t2, h1, h2⟩

/-- Claim C9: schema operations on one store never touch the other: the
pipeline's drop/recreate of the destination leaves the source store
unchanged, and seeding's drop/recreate of the source leaves the destination
store unchanged. -/
theorem C9_store_isolation (s : AppState) :
    (create_input_database s).1.output_db = s.output_db
    ∧ ∀ s2 m, process_everything s = .ok (s2, m) → s2.input_db = s.input_db := by
  refine ⟨rfl, ?_⟩
  intro s2 m h
  cases hin : s.input_db with
  | none =>
    rw [process_everything_none s hin] at h
    exact absurd h (by simp)
  | some inputs =>
    rw [process_everything_eq s inputs hin] at h
    simp only [Except.ok.injEq, Prod.mk.injEq] at h
    obtain ⟨h1, h2⟩ := h
    rw [← h1]

/-- Witness for C9 at the seeded state. -/
theorem C9_store_isolation_witness :
    (create_input_database seededState).1.output_db = seededState.output_db
    ∧ (AppState.mk (some seedRows) (some seedOut)).input_db =
        seededState.input_db :=
  ⟨(C9_store_isolation seededState).1,
    (C9_store_isolation seededState).2 ⟨some seedRows, some seedOut⟩
      "3 people processed of which 1 were cool" rfl⟩

/-- Claim C10: `first_name` fails (yields no token) for every name made
solely of whitespace, not just the empty string; `" "` is such an input,
splitting to no tokens. -/
theorem C10_whitespace_name_fails (p : OutputPerson)
    (h : ∀ c ∈ p.name.toList, isPyWhitespace c = true) :
    first_name p = none ∧ (p.name = " " → pySplit p.name = []) := by
  have hs : pySplit p.name = [] := by
    rw [pySplit]
    exact pySplitAux_all_ws p.name.toList h
  exact ⟨by rw [first_name, hs]; rfl, fun _ => hs⟩

/-- Witness for C10 at the single-space name. -/
theorem C10_whitespace_name_fails_witness :
    (∀ c ∈ (⟨1, " ", "Blank", "unknown", 0, false⟩ : OutputPerson).name.toList,
      isPyWhitespace c = true)
    ∧ first_name ⟨1, " ", "Blank", "unknown", 0, false⟩ = none :=
  ⟨by decide,
    (C10_whitespace_name_fails ⟨1, " ", "Blank", "unknown", 0, false⟩
      (by decide)).1⟩

end CoolCalculator
